import Mathlib

/-!
# Verification of `geometric_SAR_properties_for_landslides.js`

A shallow embedding of the per-pixel raster arithmetic and the
zonal-aggregation / export wiring of the Google Earth Engine script
`src/geometric_SAR_properties_for_landslides.js`, together with proofs
and refutations of the specified properties.

The script's raster algebra is strictly pixel-local, so every raster
operation is embedded as a function on the real value a pixel carries.
Angles are in radians after the script's `Math.PI/180` conversions.
-/

open Real

namespace SARGeom

/-! ## Per-pixel radar geometry (source lines 54-77) -/

/-- Source line 65: `phi_rRad = phi_iRad.subtract(phi_sRad)` —
slope aspect relative to satellite look direction, per pixel. -/
def phi_rRad (phi_iRad phi_sRad : ℝ) : ℝ := phi_iRad - phi_sRad

/-- Source line 69:
`alpha_rRad = (alpha_sRad.tan().multiply(phi_rRad.cos())).atan()` —
slope steepness in the range direction, per pixel. -/
noncomputable def alpha_rRad (alpha_sRad phi_r : ℝ) : ℝ :=
  Real.arctan (Real.tan alpha_sRad * Real.cos phi_r)

/-- Source line 76: `theta_iRad_loc = theta_iRad.subtract(alpha_rRad)` —
difference between SAR incidence angle and local slope in LOS, per pixel. -/
def theta_iRad_loc (theta_iRad alpha_r : ℝ) : ℝ := theta_iRad - alpha_r

/-! ## Decorrelation model constants (source lines 151-158) -/

/-- Source line 152: speed of light. -/
def c : ℝ := 299792458

/-- Source line 154: Sentinel-1 wavelength in m. -/
def lambda : ℝ := 0.05547

/-- Source line 155: earth-satellite distance in m. -/
def r : ℝ := 693000

/-- Source line 156: chirp bandwidth in Hz. -/
def Bw : ℝ := 48300000

/-- Source line 151: the perpendicular baseline chosen in the script. -/
def Bperp : ℝ := 150

/-- Source line 160:
`coh_geom = ones.subtract(c_im.multiply(Bp).divide(lambda.multiply(r).multiply(theta_iRad_loc.tan().abs()).multiply(Bw)))`
— modelled geometric coherence at a pixel whose local incidence angle is
`theta_loc`, for perpendicular baseline `Bp`.  The script applies no
clamping to this value; the `{min:0,max:1.0}` on line 161 only configures
the map visualisation. -/
noncomputable def coh_geom (theta_loc Bp : ℝ) : ℝ :=
  1 - c * Bp / (lambda * r * |Real.tan theta_loc| * Bw)

/-- The coherence formula exactly as the spec states it (section 4.4):
`coh = 1 − (c·Bperp) / (λ·r·Bw·|tan(θᵢ,loc)|)`; the operand order of the
denominator differs from the source's, so this is kept as a separate
definition to compare against `coh_geom`. -/
noncomputable def coh_spec (theta_loc Bp : ℝ) : ℝ :=
  1 - c * Bp / (lambda * r * Bw * |Real.tan theta_loc|)

/-! ## Zonal aggregation (source lines 81-175)

The script reduces each raster over every landslide polygon with
`ee.Reducer.median()` via `reduceRegions`.  The reducer itself is part of
the external Earth Engine runtime, not of this repository, so its
semantics are modelled from the spec.  A polygon's footprint is embedded
as the list of pixel values the field takes there, `none` marking a
no-data pixel. -/

/-- Modelled from the spec: the valid (non-nodata) pixels of a polygon's
footprint — "restricted to valid (non-nodata) pixels intersecting the
polygon footprint". -/
def validPixels {α : Type} (px : List (Option α)) : List α := px.filterMap id

/-- Insert a value into a sorted list, keeping it sorted. -/
def insertSorted {α : Type} [LinearOrder α] (x : α) : List α → List α
  | [] => [x]
  | y :: ys => if x ≤ y then x :: y :: ys else y :: insertSorted x ys

/-- Insertion sort of a pixel-value list. -/
def sortPixels {α : Type} [LinearOrder α] : List α → List α
  | [] => []
  | x :: xs => insertSorted x (sortPixels xs)

/-- Modelled from the spec: the median of a sorted multiset of pixel
values — "standard median-of-multiset semantics; for even counts, average
the two middle values"; an empty pixel set has no median. -/
def medianOfSorted {α : Type} [LinearOrderedField α] (l : List α) : Option α :=
  if l.length % 2 = 1 then l[l.length / 2]?
  else
    match l[l.length / 2 - 1]?, l[l.length / 2]? with
    | some a, some b => some ((a + b) / 2)
    | _, _ => none

/-- Modelled from the spec: the `ee.Reducer.median()` zonal statistic of
source lines 81-85 — the spatial median of the valid pixel values of one
polygon, absent when the polygon has no valid pixels. -/
def zonalMedian {α : Type} [LinearOrderedField α] (px : List (Option α)) : Option α :=
  medianOfSorted (sortPixels (validPixels px))

/-! ## Look-direction estimation (source lines 50-52) -/

/-- Spec section 7 error taxonomy for the look-direction estimate. -/
inductive GeometryError
  | nonIntersecting
  deriving DecidableEq

/-- Modelled from the spec: the look-direction estimate of source line 51
(`ee.Reducer.mean()` of the aspect of the incidence-angle band over the
region) — the mean reducer lives in the external Earth Engine runtime; per
spec section 4.3, when the region contributes no valid pixels the estimate
is undefined and the computation fails with `GeometryError` instead of
defaulting to 0. -/
def look_dir (px : List (Option ℚ)) : Except GeometryError ℚ :=
  match validPixels px with
  | [] => Except.error GeometryError.nonIntersecting
  | v => Except.ok (v.sum / v.length)

/-! ## Export wiring of the pipeline (source lines 81-175)

Each `reduceRegions` call pairs a raster field with the polygon inventory;
each `Export.table.toDrive` call pairs a computed collection with an
output description.  Per polygon, the embedding carries the sampled pixel
lists of the six raster fields and mirrors which collection each export
statement actually passes. -/

/-- The six output-table descriptions of the `Export.table.toDrive`
calls (source lines 88, 102, 115, 128, 141, 172). -/
inductive ExportDesc
  | ls_theta_T019D
  | ls_slope_in_LOS_T019D
  | ls_slopes
  | ls_aspects
  | ls_theta_alpha_difference_T019D
  | ls_modelled_coh_geom_T019D
  deriving DecidableEq

/-- One polygon's sampled pixel values for each raster field fed to
`reduceRegions`: `theta_iRad`, `alpha_rRad`, `alpha_sRad`, `phi_sRad`,
`theta_iRad_loc` and `coh_geom` in source order. -/
structure PolygonSampling where
  theta_px : List (Option ℚ)
  alpha_r_px : List (Option ℚ)
  slope_px : List (Option ℚ)
  aspect_px : List (Option ℚ)
  theta_loc_px : List (Option ℚ)
  coh_px : List (Option ℚ)

/-- Source lines 81-85: `ls_theta`, the zonal median of `theta_iRad`. -/
def ls_theta (p : PolygonSampling) : Option ℚ := zonalMedian p.theta_px

/-- Source lines 94-98: `ls_alpha`, the zonal median of `alpha_rRad`. -/
def ls_alpha (p : PolygonSampling) : Option ℚ := zonalMedian p.alpha_r_px

/-- Source lines 108-112: `ls_slope`, the zonal median of `alpha_sRad`. -/
def ls_slope (p : PolygonSampling) : Option ℚ := zonalMedian p.slope_px

/-- Source lines 121-125: `ls_aspect`, the zonal median of `phi_sRad`. -/
def ls_aspect (p : PolygonSampling) : Option ℚ := zonalMedian p.aspect_px

/-- Source lines 134-138: `ls_theta_alpha_difference`, the zonal median
of `theta_iRad_loc`. -/
def ls_theta_alpha_difference (p : PolygonSampling) : Option ℚ :=
  zonalMedian p.theta_loc_px

/-- Source lines 165-169: `ls_modelled_coh_geom`, the zonal median of
`coh_geom`. -/
def ls_modelled_coh_geom (p : PolygonSampling) : Option ℚ :=
  zonalMedian p.coh_px

/-- The collection each `Export.table.toDrive` statement passes, keyed by
its description.  Source line 127 passes `ls_slope` under the description
`ls_aspects`, and source line 140 passes `ls_theta` under the description
`ls_theta_alpha_difference_T019D`. -/
def exportedCollection (p : PolygonSampling) : ExportDesc → Option ℚ
  | ExportDesc.ls_theta_T019D => ls_theta p
  | ExportDesc.ls_slope_in_LOS_T019D => ls_alpha p
  | ExportDesc.ls_slopes => ls_slope p
  | ExportDesc.ls_aspects => ls_slope p
  | ExportDesc.ls_theta_alpha_difference_T019D => ls_theta p
  | ExportDesc.ls_modelled_coh_geom_T019D => ls_modelled_coh_geom p

/-- A concrete polygon sampling on which the six fields all have distinct
constant values over a one-pixel footprint. -/
def P0 : PolygonSampling :=
  ⟨[some 3], [some 5], [some 1], [some 2], [some 4], [some 6]⟩

/-! ## Helper lemmas on sorting and the median -/

theorem mem_insertSorted {α : Type} [LinearOrder α] {x y : α} {l : List α} :
    y ∈ insertSorted x l ↔ y = x ∨ y ∈ l := by
  induction l with
  | nil => simp [insertSorted]
  | cons z zs ih =>
    simp only [insertSorted]
    split
    · simp [List.mem_cons]
    · simp only [List.mem_cons, ih]
      tauto

theorem length_insertSorted {α : Type} [LinearOrder α] (x : α) (l : List α) :
    (insertSorted x l).length = l.length + 1 := by
  induction l with
  | nil => rfl
  | cons z zs ih =>
    simp only [insertSorted]
    split
    · simp
    · simp [ih]

theorem mem_sortPixels {α : Type} [LinearOrder α] {y : α} {l : List α} :
    y ∈ sortPixels l ↔ y ∈ l := by
  induction l with
  | nil => simp [sortPixels]
  | cons z zs ih => simp [sortPixels, mem_insertSorted, ih]

theorem length_sortPixels {α : Type} [LinearOrder α] (l : List α) :
    (sortPixels l).length = l.length := by
  induction l with
  | nil => rfl
  | cons z zs ih => simp [sortPixels, length_insertSorted, ih]

theorem medianOfSorted_const {α : Type} [LinearOrderedField α] {l : List α} {C : α}
    (hne : l ≠ []) (hc : ∀ v ∈ l, v = C) : medianOfSorted l = some C := by
  have hlen : 0 < l.length := List.length_pos.mpr hne
  unfold medianOfSorted
  by_cases hpar : l.length % 2 = 1
  · rw [if_pos hpar]
    have hlt : l.length / 2 < l.length := by omega
    rw [List.getElem?_eq_getElem hlt]
    exact congrArg some (hc _ (List.getElem_mem hlt))
  · rw [if_neg hpar]
    have hlt1 : l.length / 2 - 1 < l.length := by omega
    have hlt2 : l.length / 2 < l.length := by omega
    rw [List.getElem?_eq_getElem hlt1, List.getElem?_eq_getElem hlt2]
    rw [hc _ (List.getElem_mem hlt1), hc _ (List.getElem_mem hlt2)]
    exact congrArg some (add_self_div_two C)

theorem zonalMedian_const (C : α) [LinearOrderedField α] (px : List (Option α))
    (hne : validPixels px ≠ []) (hc : ∀ v ∈ validPixels px, v = C) :
    zonalMedian px = some C := by
  unfold zonalMedian
  refine medianOfSorted_const ?_ ?_
  · intro h
    apply hne
    have := length_sortPixels (validPixels px)
    rw [h] at this
    exact List.length_eq_zero.mp this.symm
  · intro v hv
    exact hc v (mem_sortPixels.mp hv)

theorem zonalMedian_empty {α : Type} [LinearOrderedField α] (px : List (Option α))
    (h : validPixels px = []) : zonalMedian px = none := by
  unfold zonalMedian
  rw [h]
  rfl

theorem zonalMedian_singleton {α : Type} [LinearOrderedField α] (x : α) :
    zonalMedian [some x] = some x := by
  simp [zonalMedian, validPixels, sortPixels, insertSorted, medianOfSorted]

/-! ## Helper lemmas on the coherence model -/

theorem abs_arctan (x : ℝ) : |Real.arctan x| = Real.arctan |x| := by
  have h0 : Real.arctan 0 = 0 := Real.arctan_zero
  rcases le_or_lt 0 x with h | h
  · have ha : 0 ≤ Real.arctan x := by
      have hm := Real.arctan_strictMono.monotone h
      rwa [h0] at hm
    rw [abs_of_nonneg h, abs_of_nonneg ha]
  · have ha : Real.arctan x < 0 := by
      have hm := Real.arctan_strictMono h
      rwa [h0] at hm
    rw [abs_of_neg h, abs_of_neg ha, Real.arctan_neg]

theorem coh_geom_le_one_of_nonneg (th B : ℝ) (hB : 0 ≤ B) : coh_geom th B ≤ 1 := by
  unfold coh_geom
  have hnum : (0:ℝ) ≤ c * B := by
    unfold c
    positivity
  have hden : (0:ℝ) ≤ lambda * r * |Real.tan th| * Bw := by
    have habs := abs_nonneg (Real.tan th)
    unfold lambda r Bw
    positivity
  have hdiv := div_nonneg hnum hden
  linarith

/-! ## Claim theorems -/

/-- C1 (counterexample): the script applies no clamping to the modelled
coherence: at a pixel whose local incidence angle is `arctan 0.000001`
with the script's baseline of 150 m, the coherence raster carries a value
far below 0, and a one-pixel polygon reports exactly that raw value —
it is not mapped to 0, so the output is not clamped into `[0,1]`. -/
theorem coh_geom_not_clamped :
    coh_geom (Real.arctan 0.000001) 150 < 0 ∧
    zonalMedian [some (coh_geom (Real.arctan 0.000001) 150)] =
      some (coh_geom (Real.arctan 0.000001) 150) := by
  constructor
  · unfold coh_geom
    rw [Real.tan_arctan, abs_of_pos (by norm_num : (0:ℝ) < 0.000001)]
    unfold c lambda r Bw
    norm_num
  · exact zonalMedian_singleton _

/-- C1 (amended): the reported coherence is the raw formula value with no
clamping applied: for a non-negative baseline it never exceeds 1 (so the
upper clamp would be vacuous), and the per-polygon reporting passes raw —
possibly negative — pixel values through unchanged; only the map
visualisation of source line 161 uses display bounds `[0,1]`. -/
theorem coh_geom_unclamped_reporting (th B : ℝ) (hB : 0 ≤ B) :
    coh_geom th B ≤ 1 ∧
    zonalMedian [some (coh_geom th B)] = some (coh_geom th B) :=
  ⟨coh_geom_le_one_of_nonneg th B hB, zonalMedian_singleton _⟩

/-- Witness for `coh_geom_unclamped_reporting` at `th = 0`, `B = 150`. -/
theorem coh_geom_unclamped_reporting_witness :
    (0:ℝ) ≤ 150 ∧
    (coh_geom 0 150 ≤ 1 ∧
      zonalMedian [some (coh_geom 0 150)] = some (coh_geom 0 150)) :=
  ⟨by norm_num, coh_geom_unclamped_reporting 0 150 (by norm_num)⟩

/-- C2 (code bug): the export described `ls_aspects` passes the slope
collection `ls_slope` (source line 127) instead of `ls_aspect`, and the
export described `ls_theta_alpha_difference_T019D` passes `ls_theta`
(source line 140) instead of `ls_theta_alpha_difference`; on a polygon
where the fields take distinct values, the exported tables alias the
zonal result of a different field than their own. -/
theorem exportedCollection_aliases :
    exportedCollection P0 ExportDesc.ls_aspects = ls_slope P0 ∧
    ls_slope P0 ≠ ls_aspect P0 ∧
    exportedCollection P0 ExportDesc.ls_theta_alpha_difference_T019D = ls_theta P0 ∧
    ls_theta P0 ≠ ls_theta_alpha_difference P0 :=
  ⟨rfl, by decide, rfl, by decide⟩

/-- C3: the range-direction slope steepness is
`atan(tan(alpha_s) * cos(phi_r))` and the local incidence angle is
`theta_i - alpha_r`; concretely (angles in radians via `pi/180`), slope
30 deg with relative aspect 0 deg projects to 30 deg, relative aspect
90 deg projects to 0, and incidence 40 deg minus 30 deg gives 10 deg. -/
theorem range_slope_and_local_incidence :
    (∀ a p : ℝ, alpha_rRad a p = Real.arctan (Real.tan a * Real.cos p)) ∧
    (∀ t a : ℝ, theta_iRad_loc t a = t - a) ∧
    alpha_rRad (30 * (π / 180)) 0 = 30 * (π / 180) ∧
    alpha_rRad (30 * (π / 180)) (90 * (π / 180)) = 0 ∧
    theta_iRad_loc (40 * (π / 180)) (30 * (π / 180)) = 10 * (π / 180) := by
  refine ⟨fun a p => rfl, fun t a => rfl, ?_, ?_, ?_⟩
  · unfold alpha_rRad
    rw [Real.cos_zero, mul_one]
    exact Real.arctan_tan (by linarith [Real.pi_pos]) (by linarith [Real.pi_pos])
  · unfold alpha_rRad
    have h90 : (90 : ℝ) * (π / 180) = π / 2 := by ring
    rw [h90, Real.cos_pi_div_two, mul_zero, Real.arctan_zero]
  · unfold theta_iRad_loc
    ring

/-- C4: for fixed geometry the modelled coherence is 1 at zero baseline
and monotonically non-increasing in the perpendicular baseline. -/
theorem coh_geom_antitone :
    (∀ th : ℝ, coh_geom th 0 = 1) ∧
    (∀ th B1 B2 : ℝ, 0 ≤ B1 → B1 ≤ B2 → coh_geom th B2 ≤ coh_geom th B1) := by
  constructor
  · intro th
    unfold coh_geom
    simp
  · intro th B1 B2 h0 h12
    unfold coh_geom
    have hc : (0:ℝ) ≤ c := by
      unfold c
      norm_num
    have hD : (0:ℝ) ≤ lambda * r * |Real.tan th| * Bw := by
      have habs := abs_nonneg (Real.tan th)
      unfold lambda r Bw
      positivity
    rw [div_eq_mul_inv, div_eq_mul_inv]
    have hinv : (0:ℝ) ≤ (lambda * r * |Real.tan th| * Bw)⁻¹ := inv_nonneg.mpr hD
    have hnum : c * B1 ≤ c * B2 := mul_le_mul_of_nonneg_left h12 hc
    have hmul := mul_le_mul_of_nonneg_right hnum hinv
    linarith

/-- Witness for `coh_geom_antitone` at `th = 1`, baselines 0 and 150. -/
theorem coh_geom_antitone_witness :
    (0:ℝ) ≤ 0 ∧ (0:ℝ) ≤ 150 ∧ coh_geom 1 150 ≤ coh_geom 1 0 :=
  ⟨le_refl 0, by norm_num, coh_geom_antitone.2 1 0 150 (le_refl 0) (by norm_num)⟩

/-- C5: for slopes in `[0, pi/2)` the magnitude of the range-direction
slope steepness never exceeds the true slope. -/
theorem range_slope_magnitude_le (as pr : ℝ) (h0 : 0 ≤ as) (h1 : as < π / 2) :
    |alpha_rRad as pr| ≤ as := by
  unfold alpha_rRad
  rw [abs_arctan]
  have htan : 0 ≤ Real.tan as := Real.tan_nonneg_of_nonneg_of_le_pi_div_two h0 h1.le
  have habs : |Real.tan as * Real.cos pr| ≤ Real.tan as := by
    rw [abs_mul, abs_of_nonneg htan]
    have hcos : |Real.cos pr| ≤ 1 :=
      abs_le.mpr ⟨Real.neg_one_le_cos pr, Real.cos_le_one pr⟩
    nlinarith [abs_nonneg (Real.cos pr)]
  calc Real.arctan |Real.tan as * Real.cos pr|
      ≤ Real.arctan (Real.tan as) := Real.arctan_strictMono.monotone habs
    _ = as := Real.arctan_tan (by linarith [Real.pi_pos]) h1

/-- Witness for `range_slope_magnitude_le` at slope `pi/6`, aspect 0. -/
theorem range_slope_magnitude_le_witness :
    (0:ℝ) ≤ π / 6 ∧ π / 6 < π / 2 ∧ |alpha_rRad (π / 6) 0| ≤ π / 6 :=
  ⟨by linarith [Real.pi_pos], by linarith [Real.pi_pos],
    range_slope_magnitude_le (π / 6) 0 (by linarith [Real.pi_pos])
      (by linarith [Real.pi_pos])⟩

/-- C6: the zonal median excludes no-data pixels: a field constant-valued
`C` over all valid pixels of a polygon reduces to exactly `some C`, and a
polygon with zero valid pixels yields an absent statistic (`none`), never
0 or any other default. -/
theorem zonalMedian_contract :
    (∀ (C : ℚ) (px : List (Option ℚ)), validPixels px ≠ [] →
        (∀ v ∈ validPixels px, v = C) → zonalMedian px = some C) ∧
    (∀ px : List (Option ℚ), validPixels px = [] → zonalMedian px = none) :=
  ⟨fun C px hne hc => zonalMedian_const C px hne hc,
    fun px h => zonalMedian_empty px h⟩

/-- Witness for `zonalMedian_contract` on concrete pixel lists. -/
theorem zonalMedian_contract_witness :
    (validPixels [some (7:ℚ), none, some 7] ≠ [] ∧
      (∀ v ∈ validPixels [some (7:ℚ), none, some 7], v = 7) ∧
      zonalMedian [some (7:ℚ), none, some 7] = some 7) ∧
    (validPixels ([none, none] : List (Option ℚ)) = [] ∧
      zonalMedian ([none, none] : List (Option ℚ)) = none) :=
  ⟨⟨by decide, by decide,
      zonalMedian_contract.1 7 [some 7, none, some 7] (by decide) (by decide)⟩,
    ⟨by decide, zonalMedian_contract.2 [none, none] (by decide)⟩⟩

/-- C7: at zero baseline the modelled coherence is exactly 1 for any
local incidence angle with nonzero tangent, and at the reference inputs
(`Bperp = 150`, `theta_loc = 0.6`) the script's value agrees with the
spec's formula within a relative tolerance of `1e-9` (they are equal). -/
theorem coh_geom_reference :
    (∀ th : ℝ, Real.tan th ≠ 0 → coh_geom th 0 = 1) ∧
    |coh_geom 0.6 150 - coh_spec 0.6 150| ≤ 1e-9 * |coh_spec 0.6 150| := by
  constructor
  · intro th _
    unfold coh_geom
    simp
  · have heq : coh_geom 0.6 150 = coh_spec 0.6 150 := by
      unfold coh_geom coh_spec
      ring
    rw [heq, sub_self, abs_zero]
    positivity

/-- Witness for `coh_geom_reference` at `th = arctan 2`. -/
theorem coh_geom_reference_witness :
    Real.tan (Real.arctan 2) ≠ 0 ∧ coh_geom (Real.arctan 2) 0 = 1 :=
  ⟨by rw [Real.tan_arctan]; norm_num,
    coh_geom_reference.1 (Real.arctan 2) (by rw [Real.tan_arctan]; norm_num)⟩

/-- C8: when the look-direction region contributes no valid pixels, the
estimate fails with `GeometryError.nonIntersecting` and never yields any
defaulted value (such as 0). -/
theorem look_dir_geometry_error (px : List (Option ℚ)) (h : validPixels px = []) :
    look_dir px = Except.error GeometryError.nonIntersecting ∧
    ∀ m : ℚ, look_dir px ≠ Except.ok m := by
  have he : look_dir px = Except.error GeometryError.nonIntersecting := by
    unfold look_dir
    rw [h]
  exact ⟨he, fun m hm => by rw [he] at hm; exact Except.noConfusion hm⟩

/-- Witness for `look_dir_geometry_error` on a footprint of one no-data
pixel. -/
theorem look_dir_geometry_error_witness :
    validPixels ([none] : List (Option ℚ)) = [] ∧
    look_dir [none] = Except.error GeometryError.nonIntersecting :=
  ⟨by decide, (look_dir_geometry_error [none] (by decide)).1⟩

/-- C9: the range-direction slope steepness always lies strictly inside
`(-pi/2, pi/2)`, so the local incidence angle stays strictly within
`(theta_i - pi/2, theta_i + pi/2)`. -/
theorem alpha_r_strictly_bounded (as pr th : ℝ) :
    (-(π / 2) < alpha_rRad as pr ∧ alpha_rRad as pr < π / 2) ∧
    th - π / 2 < theta_iRad_loc th (alpha_rRad as pr) ∧
    theta_iRad_loc th (alpha_rRad as pr) < th + π / 2 := by
  have h1 := Real.neg_pi_div_two_lt_arctan (Real.tan as * Real.cos pr)
  have h2 := Real.arctan_lt_pi_div_two (Real.tan as * Real.cos pr)
  unfold alpha_rRad theta_iRad_loc
  exact ⟨⟨h1, h2⟩, by linarith, by linarith⟩

/-- C10: for a non-negative baseline the raw (unclamped) coherence never
exceeds 1, because the subtracted term is non-negative, and the absolute
value in the denominator makes the coherence an even function of the
local incidence angle. -/
theorem coh_geom_raw_at_most_one (th B : ℝ) (_htan : Real.tan th ≠ 0) (hB : 0 ≤ B) :
    coh_geom th B ≤ 1 ∧ coh_geom (-th) B = coh_geom th B := by
  refine ⟨coh_geom_le_one_of_nonneg th B hB, ?_⟩
  unfold coh_geom
  rw [Real.tan_neg, abs_neg]

/-- Witness for `coh_geom_raw_at_most_one` at `th = arctan 1`, `B = 150`. -/
theorem coh_geom_raw_at_most_one_witness :
    Real.tan (Real.arctan 1) ≠ 0 ∧ (0:ℝ) ≤ 150 ∧
    (coh_geom (Real.arctan 1) 150 ≤ 1 ∧
      coh_geom (-(Real.arctan 1)) 150 = coh_geom (Real.arctan 1) 150) :=
  ⟨by rw [Real.tan_arctan]; norm_num, by norm_num,
    coh_geom_raw_at_most_one (Real.arctan 1) 150
      (by rw [Real.tan_arctan]; norm_num) (by norm_num)⟩

end SARGeom



